import Mathlib

/-!
Verification of the grain-size distribution module
`src/SKIRT/core/WeingartnerDraineDustMix.cpp` against its design document.

The C++ source is shallowly embedded over `ℝ`: `double` arithmetic becomes
exact real arithmetic, `pow` with a real exponent becomes `Real.rpow`,
`pow(x, 3)` becomes the cube, `exp`/`log`/`sqrt` become their Mathlib
counterparts, and `erf` (from `<cmath>`, absent from Mathlib) is defined
below by its textbook Gaussian-integral formula.  The setup routine
`setupSelfBefore` is embedded as the list of `addPopulations` invocations it
performs, in order.
-/

open Real

noncomputable section

/-! ## Grain size ranges (anonymous namespace constants, lines 17-22) -/

def amin_gra : ℝ := 0.001e-6
def amax_gra : ℝ := 10.0e-6
def amin_sil : ℝ := 0.001e-6
def amax_sil : ℝ := 10.0e-6
def amin_pah : ℝ := 0.0003548e-6
def amax_pah : ℝ := 0.01e-6

/-! ## Grain-silicate size distribution kernel (`dnda_grasil`, lines 25-39)

The three local variables `f0`, `f1`, `f2` of the C++ function are embedded as
named definitions so that theorems can speak about the individual factors. -/

def grasil_f0 (a C a_t alpha : ℝ) : ℝ := C / a * (a / a_t) ^ alpha

def grasil_f1 (a a_t beta : ℝ) : ℝ :=
  if beta > 0 then 1 + beta * a / a_t else 1 / (1 - beta * a / a_t)

def grasil_f2 (a a_t a_c : ℝ) : ℝ :=
  if a < a_t then 1 else Real.exp (-(((a - a_t) / a_c) ^ 3))

def dnda_grasil (a C a_t a_c alpha beta : ℝ) : ℝ :=
  grasil_f0 a C a_t alpha * grasil_f1 a a_t beta * grasil_f2 a a_t a_c

/-! ## Error function

The C++ code calls `erf` from `<cmath>`; Mathlib has no error function, so it
is defined here by the standard Gaussian integral. -/

def erf (x : ℝ) : ℝ := 2 / Real.sqrt Real.pi * ∫ t in (0 : ℝ)..x, Real.exp (-(t ^ 2))

/-! ## PAH size distribution kernel (`dnda_pah`, lines 42-64) -/

def pah_mC : ℝ := 1.9944e-26
def pah_rho : ℝ := 2.24e3
def pah_amin : ℝ := 3.5e-10

def pah_erffac (sigma a0i : ℝ) : ℝ :=
  3 * sigma / Real.sqrt 2 + Real.log (a0i / pah_amin) / Real.sqrt 2 / sigma

def pah_B (sigma a0i bci : ℝ) : ℝ :=
  (3 / (2 * Real.pi) ^ (1.5 : ℝ)) * Real.exp (-4.5 * sigma * sigma) *
    (1 / pah_rho / a0i ^ 3 / sigma) *
    (bci * pah_mC / (1 + erf (pah_erffac sigma a0i)))

def dnda_pah (a sigma : ℝ) (a0 bc : Fin 2 → ℝ) : ℝ :=
  ∑ i : Fin 2, pah_B sigma (a0 i) (bc i) / a *
    Real.exp (-0.5 * (Real.log (a / a0 i) / sigma) * (Real.log (a / a0 i) / sigma))

/-! ## Environment coefficient tables (lines 69-127) -/

def dnda_gra_mwy (a : ℝ) : ℝ := dnda_grasil a 9.99e-12 0.0107e-6 0.428e-6 (-1.54) (-0.165)

def dnda_sil_mwy (a : ℝ) : ℝ := dnda_grasil a 1.00e-13 0.164e-6 0.1e-6 (-2.21) 0.300

def dnda_pah_mwy (a : ℝ) : ℝ := 0.5 * dnda_pah a 0.4 ![3.5e-10, 30e-10] ![4.5e-5, 1.5e-5]

def dnda_gra_lmc (a : ℝ) : ℝ := dnda_grasil a 3.51e-15 0.0980e-6 0.641e-6 (-2.99) 2.46

def dnda_sil_lmc (a : ℝ) : ℝ := dnda_grasil a 1.78e-14 0.184e-6 0.1e-6 (-2.49) 0.345

def dnda_pah_lmc (a : ℝ) : ℝ := 0.5 * dnda_pah a 0.4 ![3.5e-10, 30e-10] ![0.75e-5, 0.25e-5]

/-! ## Setup routine (`WeingartnerDraineDustMix::setupSelfBefore`, lines 132-144) -/

/-- Modelled from the spec: the header `WeingartnerDraineDustMix.hpp` declaring the
`Environment` enumeration is not under src/.  Per the design document it has exactly the
two variants MilkyWay and LMC; as a C++ enumeration its runtime values are integer codes
(first enumerator 0, second 1), so the environment field is embedded as `ℤ`. -/
def Environment.MilkyWay : ℤ := 0

/-- Modelled from the spec: the LMC variant of the `Environment` enumeration. -/
def Environment.LMC : ℤ := 1

inductive GrainCompositionKind where
  | graphite
  | silicate
  | neutralPAH
  | ionizedPAH
deriving DecidableEq

/-- One invocation of the external collaborator
`addPopulations(composition, aMin, aMax, densityFn, count)`. -/
structure PopulationCall where
  composition : GrainCompositionKind
  aMin : ℝ
  aMax : ℝ
  densityFn : ℝ → ℝ
  count : ℤ

/-- The sequence of `addPopulations` calls performed by
`WeingartnerDraineDustMix::setupSelfBefore` (lines 136-143), in source order.
Each C++ conditional `_environment==Environment::MilkyWay ? f_mwy : f_lmc`
becomes an `if` on the embedded integer environment code. -/
def setupSelfBefore (env numGraphiteSizes numSilicateSizes numPAHSizes : ℤ) :
    List PopulationCall :=
  [⟨.graphite, amin_gra, amax_gra,
      if env = Environment.MilkyWay then dnda_gra_mwy else dnda_gra_lmc, numGraphiteSizes⟩,
   ⟨.silicate, amin_sil, amax_sil,
      if env = Environment.MilkyWay then dnda_sil_mwy else dnda_sil_lmc, numSilicateSizes⟩,
   ⟨.neutralPAH, amin_pah, amax_pah,
      if env = Environment.MilkyWay then dnda_pah_mwy else dnda_pah_lmc, numPAHSizes⟩,
   ⟨.ionizedPAH, amin_pah, amax_pah,
      if env = Environment.MilkyWay then dnda_pah_mwy else dnda_pah_lmc, numPAHSizes⟩]

/-! ## Spec-side formulas, for the refinement claims C1 and C2

These definitions transcribe the design document's formulas word for word, to be
compared against the embeddings of the source above. -/

def dnda_grasil_spec (a C a_t a_c alpha beta : ℝ) : ℝ :=
  (C / a * (a / a_t) ^ alpha) *
  (if beta > 0 then 1 + beta * a / a_t else 1 / (1 - beta * a / a_t)) *
  (if a_t ≤ a then Real.exp (-(((a - a_t) / a_c) ^ 3)) else 1)

def pah_B_spec (sigma a0i bci : ℝ) : ℝ :=
  (3 / (2 * Real.pi) ^ (1.5 : ℝ)) * Real.exp (-4.5 * sigma ^ 2) *
    (1 / (2.24e3 * a0i ^ 3 * sigma)) *
    (bci * 1.9944e-26 /
      (1 + erf (3 * sigma / Real.sqrt 2 + Real.log (a0i / 3.5e-10) / (Real.sqrt 2 * sigma))))

def dnda_pah_spec (a sigma : ℝ) (a0 bc : Fin 2 → ℝ) : ℝ :=
  ∑ i : Fin 2, pah_B_spec sigma (a0 i) (bc i) / a *
    Real.exp (-0.5 * (Real.log (a / a0 i) / sigma) ^ 2)

/-! ## Theorems -/

/-- C1: for every radius `a > 0` and parameters `a_t > 0`, `a_c > 0` (and any
`C`, `alpha`, `beta`), `dnda_grasil a C a_t a_c alpha beta` equals the spec's
`f0 * f1 * f2` with `f0 = (C/a)*(a/a_t)^alpha`; `f1 = 1 + beta*a/a_t` when
`beta > 0` and `1/(1 - beta*a/a_t)` otherwise; `f2 = 1` when `a < a_t` and
`exp(-((a-a_t)/a_c)^3)` when `a ≥ a_t`. -/
theorem dnda_grasil_matches_spec (a C a_t a_c alpha beta : ℝ)
    (ha : 0 < a) (hat : 0 < a_t) (hac : 0 < a_c) :
    dnda_grasil a C a_t a_c alpha beta = dnda_grasil_spec a C a_t a_c alpha beta := by
  unfold dnda_grasil dnda_grasil_spec grasil_f0 grasil_f1 grasil_f2
  rcases lt_or_le a a_t with h | h
  · rw [if_pos h, if_neg (not_le.mpr h)]
  · rw [if_neg (not_lt.mpr h), if_pos h]

/-- Witness for C1 at the concrete input `a = 1, C = 2, a_t = 3, a_c = 4,
alpha = 5, beta = 6`. -/
theorem dnda_grasil_matches_spec_witness :
    dnda_grasil 1 2 3 4 5 6 = dnda_grasil_spec 1 2 3 4 5 6 :=
  dnda_grasil_matches_spec 1 2 3 4 5 6 (by norm_num) (by norm_num) (by norm_num)

lemma pah_B_eq_spec (sigma a0i bci : ℝ) : pah_B sigma a0i bci = pah_B_spec sigma a0i bci := by
  unfold pah_B pah_B_spec pah_erffac pah_mC pah_rho pah_amin
  rw [div_div (Real.log (a0i / 3.5e-10)) (Real.sqrt 2) sigma,
    show (-4.5 * sigma * sigma : ℝ) = -4.5 * sigma ^ 2 by ring]
  ring

/-- C2: for every radius `a > 0`, width `sigma > 0`, centers `a0 i > 0` and
abundances `bc i > 0`, `dnda_pah a sigma a0 bc` equals the spec's sum over the
two modes of `(B i / a) * exp(-0.5*(ln(a/a0 i)/sigma)^2)` with
`B i = (3/(2π)^1.5) * exp(-4.5 sigma^2) * (1/(rho*(a0 i)^3*sigma)) *
(bc i * m_C / (1 + erf(3 sigma/√2 + ln(a0 i/a_min)/(√2 sigma))))` and the fixed
constants `m_C = 1.9944e-26`, `rho = 2.24e3`, `a_min = 3.5e-10`. -/
theorem dnda_pah_matches_spec (a sigma : ℝ) (a0 bc : Fin 2 → ℝ)
    (ha : 0 < a) (hs : 0 < sigma) (ha0 : ∀ i, 0 < a0 i) (hbc : ∀ i, 0 < bc i) :
    dnda_pah a sigma a0 bc = dnda_pah_spec a sigma a0 bc := by
  unfold dnda_pah dnda_pah_spec
  refine Finset.sum_congr rfl fun i _ => ?_
  rw [pah_B_eq_spec,
    show (-0.5 * (Real.log (a / a0 i) / sigma) * (Real.log (a / a0 i) / sigma) : ℝ)
      = -0.5 * (Real.log (a / a0 i) / sigma) ^ 2 by ring]

/-- Witness for C2 at radius 1, width 1, centers `![1, 2]`, abundances `![3, 4]`. -/
theorem dnda_pah_matches_spec_witness :
    dnda_pah 1 1 ![1, 2] ![3, 4] = dnda_pah_spec 1 1 ![1, 2] ![3, 4] :=
  dnda_pah_matches_spec 1 1 ![1, 2] ![3, 4] (by norm_num) (by norm_num)
    (fun i => by fin_cases i <;> norm_num)
    (fun i => by fin_cases i <;> norm_num)

/-- C3: for either recognized environment and any caller-supplied counts, the
setup operation performs exactly 4 `addPopulations` calls, in the fixed order
graphite, silicate, neutral PAH, ionized PAH, each with its material's fixed
size range (graphite and silicate: `0.001e-6` to `10e-6` m; both PAH kinds:
`0.0003548e-6` to `0.01e-6` m), the density function resolved for that
environment and material, and the caller's count for that material family (the
PAH count used for both charge states). -/
theorem setupSelfBefore_calls (g s p : ℤ) :
    (setupSelfBefore Environment.MilkyWay g s p).length = 4 ∧
    (setupSelfBefore Environment.LMC g s p).length = 4 ∧
    setupSelfBefore Environment.MilkyWay g s p =
      [⟨.graphite, 0.001e-6, 10.0e-6, dnda_gra_mwy, g⟩,
       ⟨.silicate, 0.001e-6, 10.0e-6, dnda_sil_mwy, s⟩,
       ⟨.neutralPAH, 0.0003548e-6, 0.01e-6, dnda_pah_mwy, p⟩,
       ⟨.ionizedPAH, 0.0003548e-6, 0.01e-6, dnda_pah_mwy, p⟩] ∧
    setupSelfBefore Environment.LMC g s p =
      [⟨.graphite, 0.001e-6, 10.0e-6, dnda_gra_lmc, g⟩,
       ⟨.silicate, 0.001e-6, 10.0e-6, dnda_sil_lmc, s⟩,
       ⟨.neutralPAH, 0.0003548e-6, 0.01e-6, dnda_pah_lmc, p⟩,
       ⟨.ionizedPAH, 0.0003548e-6, 0.01e-6, dnda_pah_lmc, p⟩] := by
  refine ⟨rfl, rfl, ?_, ?_⟩ <;>
    simp [setupSelfBefore, Environment.MilkyWay, Environment.LMC,
      amin_gra, amax_gra, amin_sil, amax_sil, amin_pah, amax_pah]

/-- C4: for either recognized environment and every radius `a > 0`, the
neutral-PAH density function passed in the third `addPopulations` call and the
ionized-PAH density function passed in the fourth are identical, and each
equals exactly `0.5` times `dnda_pah` evaluated with that environment's single
PAH parameter table. -/
theorem pah_charge_states_identical (g s p : ℤ) (a : ℝ) (ha : 0 < a) :
    (((setupSelfBefore Environment.MilkyWay g s p).get ⟨2, by simp [setupSelfBefore]⟩).densityFn a
      = ((setupSelfBefore Environment.MilkyWay g s p).get ⟨3, by simp [setupSelfBefore]⟩).densityFn a) ∧
    (((setupSelfBefore Environment.MilkyWay g s p).get ⟨2, by simp [setupSelfBefore]⟩).densityFn a
      = 0.5 * dnda_pah a 0.4 ![3.5e-10, 30e-10] ![4.5e-5, 1.5e-5]) ∧
    (((setupSelfBefore Environment.LMC g s p).get ⟨2, by simp [setupSelfBefore]⟩).densityFn a
      = ((setupSelfBefore Environment.LMC g s p).get ⟨3, by simp [setupSelfBefore]⟩).densityFn a) ∧
    (((setupSelfBefore Environment.LMC g s p).get ⟨2, by simp [setupSelfBefore]⟩).densityFn a
      = 0.5 * dnda_pah a 0.4 ![3.5e-10, 30e-10] ![0.75e-5, 0.25e-5]) := by
  refine ⟨rfl, ?_, rfl, ?_⟩ <;>
    simp [setupSelfBefore, Environment.MilkyWay, Environment.LMC,
      dnda_pah_mwy, dnda_pah_lmc]

/-- Witness for C4 at counts 1, 1, 1 and radius 1. -/
theorem pah_charge_states_identical_witness :
    ((setupSelfBefore Environment.MilkyWay 1 1 1).get ⟨2, by simp [setupSelfBefore]⟩).densityFn 1
      = ((setupSelfBefore Environment.MilkyWay 1 1 1).get ⟨3, by simp [setupSelfBefore]⟩).densityFn 1 :=
  (pah_charge_states_identical 1 1 1 1 (by norm_num)).1

/-- C6 counterexample: invoked with the unrecognized environment code `2` (not
one of `MilkyWay = 0`, `LMC = 1`), the setup operation does not fail fast: it
completes normally, performing exactly the same 4 registrations as it would for
the LMC environment. -/
theorem setup_unrecognized_env_no_failfast :
    setupSelfBefore 2 1 1 1 = setupSelfBefore Environment.LMC 1 1 1 ∧
    (setupSelfBefore 2 1 1 1).length = 4 :=
  ⟨rfl, rfl⟩

/-- C6 amended: any environment value other than `MilkyWay` — the LMC variant,
but equally any unrecognized code — silently resolves to the LMC parameter
tables, because the dispatch only tests equality with `MilkyWay`; the setup
completes normally with its 4 registrations and no failure. -/
theorem setup_nonMilkyWay_is_lmc (env g s p : ℤ) (h : env ≠ Environment.MilkyWay) :
    setupSelfBefore env g s p = setupSelfBefore Environment.LMC g s p := by
  have h1 : Environment.LMC ≠ Environment.MilkyWay := by decide
  simp [setupSelfBefore, if_neg h, if_neg h1]

/-- Witness for the amended C6 at environment code 2 and counts 1, 1, 1. -/
theorem setup_nonMilkyWay_is_lmc_witness :
    setupSelfBefore 2 1 1 1 = setupSelfBefore Environment.LMC 1 1 1 :=
  setup_nonMilkyWay_is_lmc 2 1 1 1 (by decide)

/-! ## Positivity of the kernels -/

lemma grasil_f0_pos {a C a_t : ℝ} (ha : 0 < a) (hC : 0 < C) (hat : 0 < a_t) (alpha : ℝ) :
    0 < grasil_f0 a C a_t alpha :=
  mul_pos (div_pos hC ha) (Real.rpow_pos_of_pos (div_pos ha hat) alpha)

lemma grasil_f1_denom_le {a a_t beta : ℝ} (ha : 0 ≤ a) (hat : 0 < a_t) (hb : beta ≤ 0) :
    1 ≤ 1 - beta * a / a_t := by
  have h0 : beta * a ≤ 0 := mul_nonpos_of_nonpos_of_nonneg hb ha
  have h2 : beta * a / a_t ≤ 0 := div_nonpos_iff.mpr (Or.inr ⟨h0, hat.le⟩)
  linarith

lemma grasil_f1_pos {a a_t : ℝ} (ha : 0 < a) (hat : 0 < a_t) (beta : ℝ) :
    0 < grasil_f1 a a_t beta := by
  unfold grasil_f1
  split
  · next hb => have := div_pos (mul_pos hb ha) hat; linarith
  · next hb =>
      exact one_div_pos.mpr (by linarith [grasil_f1_denom_le ha.le hat (not_lt.mp hb)])

lemma grasil_f2_pos (a a_t a_c : ℝ) : 0 < grasil_f2 a a_t a_c := by
  unfold grasil_f2
  split
  · exact one_pos
  · exact Real.exp_pos _

lemma dnda_grasil_pos {a C a_t : ℝ} (ha : 0 < a) (hC : 0 < C) (hat : 0 < a_t)
    (a_c alpha beta : ℝ) : 0 < dnda_grasil a C a_t a_c alpha beta :=
  mul_pos (mul_pos (grasil_f0_pos ha hC hat alpha) (grasil_f1_pos ha hat beta))
    (grasil_f2_pos a a_t a_c)

lemma erf_nonneg {x : ℝ} (hx : 0 ≤ x) : 0 ≤ erf x :=
  mul_nonneg (div_nonneg (by norm_num) (Real.sqrt_nonneg _))
    (intervalIntegral.integral_nonneg hx fun u _ => (Real.exp_pos _).le)

lemma erf_pos {x : ℝ} (hx : 0 < x) : 0 < erf x := by
  have hc : Continuous fun t : ℝ => Real.exp (-(t ^ 2)) :=
    Real.continuous_exp.comp (continuous_pow 2).neg
  exact mul_pos (div_pos (by norm_num) (Real.sqrt_pos.mpr Real.pi_pos))
    (intervalIntegral.intervalIntegral_pos_of_pos_on (hc.intervalIntegrable 0 x)
      (fun u _ => Real.exp_pos _) hx)

lemma pah_amin_pos : (0 : ℝ) < pah_amin := by norm_num [pah_amin]

lemma pah_erffac_pos {sigma a0i : ℝ} (hs : 0 < sigma) (h : pah_amin ≤ a0i) :
    0 < pah_erffac sigma a0i := by
  unfold pah_erffac
  have h1 : 0 < 3 * sigma / Real.sqrt 2 :=
    div_pos (by linarith) (Real.sqrt_pos.mpr (by norm_num))
  have h2 : 0 ≤ Real.log (a0i / pah_amin) :=
    Real.log_nonneg ((one_le_div pah_amin_pos).mpr h)
  have h3 : 0 ≤ Real.log (a0i / pah_amin) / Real.sqrt 2 / sigma :=
    div_nonneg (div_nonneg h2 (Real.sqrt_nonneg _)) hs.le
  linarith

lemma pah_B_pos {sigma a0i bci : ℝ} (hs : 0 < sigma) (ha0 : pah_amin ≤ a0i) (hbc : 0 < bci) :
    0 < pah_B sigma a0i bci := by
  have ha0' : 0 < a0i := lt_of_lt_of_le pah_amin_pos ha0
  have herf : 0 ≤ erf (pah_erffac sigma a0i) := erf_nonneg (pah_erffac_pos hs ha0).le
  unfold pah_B
  have t0 : (0 : ℝ) < 3 / (2 * Real.pi) ^ (1.5 : ℝ) :=
    div_pos (by norm_num) (Real.rpow_pos_of_pos (by positivity) _)
  have t2 : (0 : ℝ) < 1 / pah_rho / a0i ^ 3 / sigma := by
    unfold pah_rho
    positivity
  have t3 : (0 : ℝ) < bci * pah_mC / (1 + erf (pah_erffac sigma a0i)) :=
    div_pos (mul_pos hbc (by norm_num [pah_mC])) (by linarith)
  exact mul_pos (mul_pos (mul_pos t0 (Real.exp_pos _)) t2) t3

lemma dnda_pah_pos {a sigma : ℝ} {a0 bc : Fin 2 → ℝ} (ha : 0 < a) (hs : 0 < sigma)
    (ha0 : ∀ i, pah_amin ≤ a0 i) (hbc : ∀ i, 0 < bc i) :
    0 < dnda_pah a sigma a0 bc := by
  unfold dnda_pah
  refine Finset.sum_pos (fun i _ => ?_) ⟨0, Finset.mem_univ 0⟩
  exact mul_pos (div_pos (pah_B_pos hs (ha0 i) (hbc i)) ha) (Real.exp_pos _)

/-- C5: for every radius `a` within the material's validity range, each of the
environment-resolved density functions is strictly positive.  The six functions
below cover all eight (environment, material) combinations, since the neutral
and the ionized PAH populations are registered with the same density function
per environment (`dnda_pah_mwy` resp. `dnda_pah_lmc`). -/
theorem all_densities_pos (a : ℝ) :
    (amin_gra ≤ a → a ≤ amax_gra → 0 < dnda_gra_mwy a) ∧
    (amin_sil ≤ a → a ≤ amax_sil → 0 < dnda_sil_mwy a) ∧
    (amin_pah ≤ a → a ≤ amax_pah → 0 < dnda_pah_mwy a) ∧
    (amin_gra ≤ a → a ≤ amax_gra → 0 < dnda_gra_lmc a) ∧
    (amin_sil ≤ a → a ≤ amax_sil → 0 < dnda_sil_lmc a) ∧
    (amin_pah ≤ a → a ≤ amax_pah → 0 < dnda_pah_lmc a) := by
  have hga : amin_gra ≤ a → 0 < a := fun h => lt_of_lt_of_le (by norm_num [amin_gra]) h
  have hsa : amin_sil ≤ a → 0 < a := fun h => lt_of_lt_of_le (by norm_num [amin_sil]) h
  have hpa : amin_pah ≤ a → 0 < a := fun h => lt_of_lt_of_le (by norm_num [amin_pah]) h
  have ha0 : ∀ i, pah_amin ≤ (![3.5e-10, 30e-10] : Fin 2 → ℝ) i := fun i => by
    fin_cases i <;> norm_num [pah_amin]
  refine ⟨fun h _ => ?_, fun h _ => ?_, fun h _ => ?_, fun h _ => ?_, fun h _ => ?_,
    fun h _ => ?_⟩
  · exact dnda_grasil_pos (hga h) (by norm_num) (by norm_num) _ _ _
  · exact dnda_grasil_pos (hsa h) (by norm_num) (by norm_num) _ _ _
  · exact mul_pos (by norm_num)
      (dnda_pah_pos (hpa h) (by norm_num) ha0 fun i => by fin_cases i <;> norm_num)
  · exact dnda_grasil_pos (hga h) (by norm_num) (by norm_num) _ _ _
  · exact dnda_grasil_pos (hsa h) (by norm_num) (by norm_num) _ _ _
  · exact mul_pos (by norm_num)
      (dnda_pah_pos (hpa h) (by norm_num) ha0 fun i => by fin_cases i <;> norm_num)

/-- Witness for C5 at radius `a = 1e-8`, which lies in every material's
validity range. -/
theorem all_densities_pos_witness :
    0 < dnda_gra_mwy 1e-8 ∧ 0 < dnda_sil_mwy 1e-8 ∧ 0 < dnda_pah_mwy 1e-8 ∧
    0 < dnda_gra_lmc 1e-8 ∧ 0 < dnda_sil_lmc 1e-8 ∧ 0 < dnda_pah_lmc 1e-8 :=
  have t := all_densities_pos 1e-8
  have h1 : amin_gra ≤ 1e-8 ∧ (1e-8 : ℝ) ≤ amax_gra := by norm_num [amin_gra, amax_gra]
  have h2 : amin_sil ≤ 1e-8 ∧ (1e-8 : ℝ) ≤ amax_sil := by norm_num [amin_sil, amax_sil]
  have h3 : amin_pah ≤ 1e-8 ∧ (1e-8 : ℝ) ≤ amax_pah := by norm_num [amin_pah, amax_pah]
  ⟨t.1 h1.1 h1.2, t.2.1 h2.1 h2.2, t.2.2.1 h3.1 h3.2, t.2.2.2.1 h1.1 h1.2,
    t.2.2.2.2.1 h2.1 h2.2, t.2.2.2.2.2 h3.1 h3.2⟩

/-- C9: in `dnda_grasil`, for every radius `a > 0`, transition radius
`a_t > 0` and every `beta ≤ 0`, the denominator `1 - beta*a/a_t` of the
non-positive-beta branch is at least 1, so the division defining `f1` never
divides by zero and `0 < f1 ≤ 1`; moreover the denominator can only vanish for
a negative radius, so the divergence of this branch is unreachable for positive
radii (in particular for the Milky Way graphite table's `beta = -0.165`, which
the witness instantiates). -/
theorem grasil_f1_nonpos_beta_safe (a a_t beta : ℝ)
    (ha : 0 < a) (hat : 0 < a_t) (hb : beta ≤ 0) :
    1 ≤ 1 - beta * a / a_t ∧ 0 < grasil_f1 a a_t beta ∧ grasil_f1 a a_t beta ≤ 1 ∧
      ∀ x : ℝ, 1 - beta * x / a_t = 0 → x < 0 := by
  have hden := grasil_f1_denom_le ha.le hat hb
  have hf1 : grasil_f1 a a_t beta = 1 / (1 - beta * a / a_t) := by
    unfold grasil_f1
    rw [if_neg (not_lt.mpr hb)]
  refine ⟨hden, ?_, ?_, ?_⟩
  · rw [hf1]
    exact one_div_pos.mpr (by linarith)
  · rw [hf1]
    exact (div_le_one (by linarith)).mpr hden
  · intro x hx
    by_contra hxn
    push_neg at hxn
    have := grasil_f1_denom_le hxn hat hb
    linarith

/-- Witness for C9 at `a = 1`, `a_t = 1` and the Milky Way graphite value
`beta = -0.165`. -/
theorem grasil_f1_nonpos_beta_safe_witness :
    1 ≤ 1 - (-0.165 : ℝ) * 1 / 1 ∧ 0 < grasil_f1 1 1 (-0.165) ∧
      grasil_f1 1 1 (-0.165) ≤ 1 :=
  have t := grasil_f1_nonpos_beta_safe 1 1 (-0.165) (by norm_num) (by norm_num) (by norm_num)
  ⟨t.1, t.2.1, t.2.2.1⟩

/-- C10: in `dnda_pah`, for every width `sigma > 0` and every lognormal center
`a0i ≥ 3.5e-10` (which holds for all four literal PAH tables, where
`sigma = 0.4` and `a0 = {3.5e-10, 30e-10}`), the error-function argument
`3*sigma/√2 + ln(a0i/3.5e-10)/(√2*sigma)` is strictly positive, hence the
denominator `1 + erf(...)` is strictly greater than 1, and consequently each
normalization constant `B i` is strictly positive; in particular no division by
zero occurs. -/
theorem pah_normalization_safe (sigma a0i : ℝ) (hs : 0 < sigma) (h : 3.5e-10 ≤ a0i) :
    0 < pah_erffac sigma a0i ∧ 1 < 1 + erf (pah_erffac sigma a0i) ∧
      ∀ bci, 0 < bci → 0 < pah_B sigma a0i bci := by
  have h' : pah_amin ≤ a0i := by
    unfold pah_amin
    exact h
  have he := pah_erffac_pos hs h'
  exact ⟨he, by linarith [erf_pos he], fun bci hb => pah_B_pos hs h' hb⟩

/-- Witness for C10 at the Milky Way PAH table values `sigma = 0.4`,
`a0i = 3.5e-10`, `bci = 4.5e-5`. -/
theorem pah_normalization_safe_witness :
    0 < pah_erffac 0.4 3.5e-10 ∧ 1 < 1 + erf (pah_erffac 0.4 3.5e-10) ∧
      0 < pah_B 0.4 3.5e-10 4.5e-5 :=
  have t := pah_normalization_safe 0.4 3.5e-10 (by norm_num) (by norm_num)
  ⟨t.1, t.2.1, t.2.2 4.5e-5 (by norm_num)⟩

/-! ## Reference value for the Milky Way graphite table (claim C7) -/

/-- Modelled from the spec: the reference-value test's "precomputed reference value" is
recorded nowhere in the repository (no test artifacts are under src/); per the spec it is
the value of `dnda_grasil` at the Milky Way graphite parameters and `a = 0.01e-6`, written
here in closed form with the two conditionals resolved (`beta = -0.165` is not positive, so
`f1 = 1/(1 - beta*a/a_t) = 1/(1 + 0.165*a/a_t)`, and `a = 0.01e-6 < a_t = 0.0107e-6`
selects `f2 = 1`). -/
def gra_mwy_referenceValue : ℝ :=
  9.99e-12 / 0.01e-6 * (0.01e-6 / 0.0107e-6) ^ (-1.54 : ℝ) *
    (1 / (1 + 0.165 * 0.01e-6 / 0.0107e-6))

/-- C7: `dnda_grasil` with the Milky Way graphite parameters
`(C = 9.99e-12, a_t = 0.0107e-6, a_c = 0.428e-6, alpha = -1.54, beta = -0.165)`
evaluated at `a = 0.01e-6` matches the precomputed reference value within
`1e-9` relative tolerance (in the real-number embedding it equals the reference
value exactly). -/
theorem dnda_gra_mwy_reference :
    |dnda_gra_mwy 0.01e-6 - gra_mwy_referenceValue| ≤ 1e-9 * gra_mwy_referenceValue := by
  have hpos : (0 : ℝ) < gra_mwy_referenceValue := by
    unfold gra_mwy_referenceValue
    have := Real.rpow_pos_of_pos (show (0:ℝ) < 0.01e-6 / 0.0107e-6 by norm_num) (-1.54)
    positivity
  have hval : dnda_gra_mwy 0.01e-6 = gra_mwy_referenceValue := by
    unfold dnda_gra_mwy dnda_grasil grasil_f0 grasil_f1 grasil_f2 gra_mwy_referenceValue
    rw [if_neg (by norm_num), if_pos (by norm_num)]
    norm_num
  rw [hval, sub_self, abs_zero]
  exact mul_nonneg (by norm_num) hpos.le

/-! ## Tail suppression by the cutoff factor (claim C8) -/

lemma exp_27_gt : (262144 : ℝ) < Real.exp 27 := by
  have h3 : (4 : ℝ) < Real.exp 3 := by
    have := Real.add_one_lt_exp (show (3:ℝ) ≠ 0 by norm_num)
    linarith
  calc (262144 : ℝ) = 4 ^ (9 : ℕ) := by norm_num
    _ < Real.exp 3 ^ (9 : ℕ) := pow_lt_pow_left h3 (by norm_num) (by norm_num)
    _ = Real.exp 27 := by rw [← Real.exp_nat_mul]; norm_num

lemma grasil_f2_tail {a a_t a_c : ℝ} (hac : 0 < a_c) (ha : a_t + 3 * a_c ≤ a) :
    grasil_f2 a a_t a_c ≤ Real.exp (-27) := by
  have hge : a_t ≤ a := by linarith
  unfold grasil_f2
  rw [if_neg (not_lt.mpr hge)]
  apply Real.exp_le_exp.mpr
  have hx : (3 : ℝ) ≤ (a - a_t) / a_c := by
    rw [le_div_iff hac]
    linarith
  have hcube : (27 : ℝ) ≤ ((a - a_t) / a_c) ^ 3 := by
    calc (27 : ℝ) = 3 ^ 3 := by norm_num
      _ ≤ ((a - a_t) / a_c) ^ 3 := pow_le_pow_left (by norm_num) hx 3
  linarith

lemma grasil_f0_tail {a C a_t : ℝ} (hC : 0 < C) (hat : 0 < a_t) (ha : a_t ≤ a)
    {alpha : ℝ} (halpha : alpha ≤ 0) :
    grasil_f0 a C a_t alpha ≤ C / a_t := by
  have ha' : 0 < a := lt_of_lt_of_le hat ha
  unfold grasil_f0
  have h1 : (a / a_t) ^ alpha ≤ 1 :=
    Real.rpow_le_one_of_one_le_of_nonpos ((one_le_div hat).mpr ha) halpha
  calc C / a * (a / a_t) ^ alpha ≤ C / a * 1 :=
        mul_le_mul_of_nonneg_left h1 (by positivity)
    _ = C / a := mul_one _
    _ ≤ C / a_t := div_le_div_of_nonneg_left hC.le hat ha

lemma grasil_f1_le_nonpos {a a_t beta : ℝ} (ha : 0 ≤ a) (hat : 0 < a_t) (hb : beta ≤ 0) :
    grasil_f1 a a_t beta ≤ 1 := by
  unfold grasil_f1
  rw [if_neg (not_lt.mpr hb)]
  exact (div_le_one (by linarith [grasil_f1_denom_le ha hat hb])).mpr
    (grasil_f1_denom_le ha hat hb)

lemma grasil_f1_le_pos {a a_t beta amax : ℝ} (hb : 0 < beta) (hat : 0 < a_t) (ha : a ≤ amax) :
    grasil_f1 a a_t beta ≤ 1 + beta * amax / a_t := by
  unfold grasil_f1
  rw [if_pos hb]
  have h1 : beta * a ≤ beta * amax := mul_le_mul_of_nonneg_left ha hb.le
  have h2 : beta * a / a_t ≤ beta * amax / a_t :=
    div_le_div_of_nonneg_right h1 hat.le
  linarith

lemma grasil_f1_at_self_nonpos {a_t beta : ℝ} (hat : 0 < a_t) (hb : beta ≤ 0) :
    grasil_f1 a_t a_t beta = 1 / (1 - beta) := by
  unfold grasil_f1
  rw [if_neg (not_lt.mpr hb), mul_div_assoc, div_self hat.ne', mul_one]

lemma grasil_f1_at_self_pos {a_t beta : ℝ} (hat : 0 < a_t) (hb : 0 < beta) :
    grasil_f1 a_t a_t beta = 1 + beta := by
  unfold grasil_f1
  rw [if_pos hb, mul_div_assoc, div_self hat.ne', mul_one]

lemma dnda_grasil_at_self {C a_t : ℝ} (hat : 0 < a_t) (a_c alpha beta : ℝ) :
    dnda_grasil a_t C a_t a_c alpha beta = C / a_t * grasil_f1 a_t a_t beta := by
  unfold dnda_grasil grasil_f0 grasil_f2
  rw [div_self hat.ne', Real.one_rpow, mul_one, if_neg (lt_irrefl a_t), sub_self, zero_div,
    zero_pow (by norm_num), neg_zero, Real.exp_zero, mul_one]

lemma dnda_grasil_tail {a C a_t a_c alpha beta F1max F1at : ℝ}
    (hC : 0 < C) (hat : 0 < a_t) (hac : 0 < a_c) (halpha : alpha ≤ 0)
    (ha : a_t + 3 * a_c ≤ a)
    (hf1a : grasil_f1 a a_t beta ≤ F1max) (hF1max : 0 < F1max)
    (hf1at : F1at ≤ grasil_f1 a_t a_t beta)
    (hcomp : 1000 * F1max ≤ 262144 * F1at) :
    1000 * dnda_grasil a C a_t a_c alpha beta < dnda_grasil a_t C a_t a_c alpha beta := by
  have hta : a_t ≤ a := by linarith
  have ha' : 0 < a := lt_of_lt_of_le hat hta
  have hf0 := grasil_f0_tail hC hat hta halpha
  have hf2 := grasil_f2_tail hac ha
  have hf0pos := grasil_f0_pos ha' hC hat alpha
  have hf1pos := grasil_f1_pos ha' hat beta
  have hf2pos := grasil_f2_pos a a_t a_c
  have hCt : 0 < C / a_t := div_pos hC hat
  have h1 : dnda_grasil a C a_t a_c alpha beta ≤ C / a_t * F1max * Real.exp (-27) := by
    unfold dnda_grasil
    exact mul_le_mul (mul_le_mul hf0 hf1a hf1pos.le hCt.le) hf2 hf2pos.le
      (mul_nonneg hCt.le hF1max.le)
  have hexp : Real.exp (-27) < 1 / 262144 := by
    rw [Real.exp_neg, one_div]
    exact inv_lt_inv_of_lt (by norm_num) exp_27_gt
  have hR : C / a_t * F1at ≤ dnda_grasil a_t C a_t a_c alpha beta := by
    rw [dnda_grasil_at_self hat a_c alpha beta]
    exact mul_le_mul_of_nonneg_left hf1at hCt.le
  have h2 : 1000 * (C / a_t * F1max * Real.exp (-27))
      < 1000 * (C / a_t * F1max * (1 / 262144)) := by
    apply mul_lt_mul_of_pos_left _ (by norm_num)
    exact mul_lt_mul_of_pos_left hexp (by positivity)
  have h3 : 1000 * (C / a_t * F1max * (1 / 262144)) ≤ C / a_t * F1at := by
    have h4 := mul_le_mul_of_nonneg_left hcomp hCt.le
    nlinarith
  have h5 : 1000 * dnda_grasil a C a_t a_c alpha beta
      ≤ 1000 * (C / a_t * F1max * Real.exp (-27)) :=
    mul_le_mul_of_nonneg_left h1 (by norm_num)
  linarith

/-- C8: for each of the four grain-silicate parameter tables defined in the
source (Milky Way and LMC graphite and silicate), every radius `a` beyond
`a_t + 3*a_c` and within the material's validity range has its density
suppressed by at least three orders of magnitude relative to the transition
radius: `1000 * dnda(a) < dnda(a_t)`. -/
theorem grasil_cutoff_suppression (a : ℝ) :
    (0.0107e-6 + 3 * 0.428e-6 ≤ a → a ≤ amax_gra →
      1000 * dnda_gra_mwy a < dnda_gra_mwy 0.0107e-6) ∧
    (0.164e-6 + 3 * 0.1e-6 ≤ a → a ≤ amax_sil →
      1000 * dnda_sil_mwy a < dnda_sil_mwy 0.164e-6) ∧
    (0.0980e-6 + 3 * 0.641e-6 ≤ a → a ≤ amax_gra →
      1000 * dnda_gra_lmc a < dnda_gra_lmc 0.0980e-6) ∧
    (0.184e-6 + 3 * 0.1e-6 ≤ a → a ≤ amax_sil →
      1000 * dnda_sil_lmc a < dnda_sil_lmc 0.184e-6) := by
  refine ⟨fun h1 h2 => ?_, fun h1 h2 => ?_, fun h1 h2 => ?_, fun h1 h2 => ?_⟩
  · have ha' : (0 : ℝ) ≤ a := by linarith [show (0:ℝ) < 0.0107e-6 + 3 * 0.428e-6 by norm_num]
    unfold dnda_gra_mwy
    exact dnda_grasil_tail (by norm_num) (by norm_num) (by norm_num) (by norm_num) h1
      (grasil_f1_le_nonpos ha' (by norm_num) (by norm_num)) (by norm_num)
      (le_of_eq (grasil_f1_at_self_nonpos (by norm_num) (by norm_num)).symm)
      (by norm_num)
  · have h2' : a ≤ 10.0e-6 := h2
    unfold dnda_sil_mwy
    exact dnda_grasil_tail (by norm_num) (by norm_num) (by norm_num) (by norm_num) h1
      (grasil_f1_le_pos (by norm_num) (by norm_num) h2') (by norm_num)
      (le_of_eq (grasil_f1_at_self_pos (by norm_num) (by norm_num)).symm)
      (by norm_num)
  · have h2' : a ≤ 10.0e-6 := h2
    unfold dnda_gra_lmc
    exact dnda_grasil_tail (by norm_num) (by norm_num) (by norm_num) (by norm_num) h1
      (grasil_f1_le_pos (by norm_num) (by norm_num) h2') (by norm_num)
      (le_of_eq (grasil_f1_at_self_pos (by norm_num) (by norm_num)).symm)
      (by norm_num)
  · have h2' : a ≤ 10.0e-6 := h2
    unfold dnda_sil_lmc
    exact dnda_grasil_tail (by norm_num) (by norm_num) (by norm_num) (by norm_num) h1
      (grasil_f1_le_pos (by norm_num) (by norm_num) h2') (by norm_num)
      (le_of_eq (grasil_f1_at_self_pos (by norm_num) (by norm_num)).symm)
      (by norm_num)

/-- Witness for C8 at radii `2e-6`, `1e-6`, `3e-6` and `1e-6`, each beyond the
respective table's `a_t + 3*a_c` and within the validity range. -/
theorem grasil_cutoff_suppression_witness :
    1000 * dnda_gra_mwy 2e-6 < dnda_gra_mwy 0.0107e-6 ∧
    1000 * dnda_sil_mwy 1e-6 < dnda_sil_mwy 0.164e-6 ∧
    1000 * dnda_gra_lmc 3e-6 < dnda_gra_lmc 0.0980e-6 ∧
    1000 * dnda_sil_lmc 1e-6 < dnda_sil_lmc 0.184e-6 :=
  ⟨(grasil_cutoff_suppression 2e-6).1 (by norm_num) (by norm_num [amax_gra]),
   (grasil_cutoff_suppression 1e-6).2.1 (by norm_num) (by norm_num [amax_sil]),
   (grasil_cutoff_suppression 3e-6).2.2.1 (by norm_num) (by norm_num [amax_gra]),
   (grasil_cutoff_suppression 1e-6).2.2.2 (by norm_num) (by norm_num [amax_sil])⟩
